import Mathlib

/-!
Verification of the statement-ingestion pipeline of the fins backend.

Each section shallowly embeds one part of the Python source
(src/backend/app/...) as executable Lean definitions and proves the
documented properties about them.  External collaborators (the pandas
date parser, the LLM completion service, the database) are modelled as
explicit parameters: an oracle function or an in-memory list standing
for the persisted store.
-/

namespace Fins

/-! ## Python string containment (`needle in hay`)

Python substring containment, used by `TransactionService._is_duplicate`
(`description in existing_txn.description.lower()` and the converse).
The empty string is contained in every string. -/

/-- `leadsWith n h` is true when the list `n` is an initial segment of `h`. -/
def leadsWith : List Char → List Char → Bool
  | [], _ => true
  | _ :: _, [] => false
  | a :: as, b :: bs => decide (a = b) && leadsWith as bs

/-- `hasSub n h` is true when `n` occurs contiguously inside `h`. -/
def hasSub (n : List Char) : List Char → Bool
  | [] => leadsWith n []
  | c :: t => leadsWith n (c :: t) || hasSub n t

/-- Python `needle in hay` on strings: contiguous substring containment. -/
def pyIn (needle hay : String) : Bool :=
  hasSub needle.toList hay.toList

/-- Python `s.lower()`, modelled character-wise so that it reduces in
the kernel (String.toLower itself works on byte positions). -/
def pyLower (s : String) : String :=
  String.mk (s.toList.map Char.toLower)

theorem leadsWith_iff (n h : List Char) :
    leadsWith n h = true ↔ ∃ t, h = n ++ t := by
  induction n generalizing h with
  | nil => simp [leadsWith]
  | cons a as ih =>
    cases h with
    | nil => simp [leadsWith]
    | cons b bs =>
      simp only [leadsWith, Bool.and_eq_true, decide_eq_true_eq, ih, List.cons_append,
        List.cons.injEq]
      constructor
      · rintro ⟨hab, t, ht⟩
        exact ⟨t, hab.symm, ht⟩
      · rintro ⟨t, hab, ht⟩
        exact ⟨hab.symm, t, ht⟩

theorem hasSub_iff (n h : List Char) :
    hasSub n h = true ↔ ∃ p t, h = p ++ n ++ t := by
  induction h with
  | nil =>
    simp only [hasSub, leadsWith_iff]
    constructor
    · rintro ⟨t, ht⟩
      exact ⟨[], t, by simpa using ht⟩
    · rintro ⟨p, t, ht⟩
      rcases List.append_eq_nil.mp (List.append_eq_nil.mp ht.symm).1 with ⟨hp, hn⟩
      exact ⟨t, by simp [hn, (List.append_eq_nil.mp ht.symm).2, hp]⟩
  | cons c cs ih =>
    simp only [hasSub, Bool.or_eq_true, leadsWith_iff, ih]
    constructor
    · rintro (⟨t, ht⟩ | ⟨p, t, ht⟩)
      · exact ⟨[], t, by simpa using ht⟩
      · exact ⟨c :: p, t, by simp [ht]⟩
    · rintro ⟨p, t, ht⟩
      cases p with
      | nil => exact Or.inl ⟨t, by simpa using ht⟩
      | cons q qs =>
        right
        refine ⟨qs, t, ?_⟩
        simp only [List.cons_append, List.cons.injEq] at ht
        simpa using ht.2

theorem hasSub_nil (h : List Char) : hasSub [] h = true := by
  cases h <;> simp [hasSub, leadsWith]

theorem hasSub_trans {a b c : List Char} (hab : hasSub a b = true)
    (hbc : hasSub b c = true) : hasSub a c = true := by
  rw [hasSub_iff] at hab hbc ⊢
  obtain ⟨p₁, t₁, h₁⟩ := hab
  obtain ⟨p₂, t₂, h₂⟩ := hbc
  exact ⟨p₂ ++ p₁, t₁ ++ t₂, by simp [h₂, h₁]⟩

theorem pyIn_empty (hay : String) : pyIn "" hay = true := by
  simpa [pyIn] using hasSub_nil hay.toList

theorem pyIn_trans {a b c : String} (hab : pyIn a b = true)
    (hbc : pyIn b c = true) : pyIn a c = true :=
  hasSub_trans hab hbc

/-! ## Duplicate detector — `TransactionService._is_duplicate`
(src/backend/app/services/transaction_service.py, lines 57-106)

The persisted transaction store is modelled as a list; the SQL query of
the source (same account, transaction_date within plus/minus one day,
equal amount) becomes a list filter.  Dates are modelled as integer day
numbers, amounts as rationals (Python `Decimal`). -/

/-- A persisted transaction row, as read by the duplicate check. -/
structure StoredTxn where
  account_id : String
  transaction_date : Int
  amount : Rat
  description : String
  merchant_name : Option String
  deriving Repr, DecidableEq

/-- A draft transaction as passed to `_is_duplicate`: the dict fields
after the `.get` defaults of the source (`description` and
`merchant_name` default to the empty string). -/
structure Draft where
  date : Int
  amount : Rat
  description : String
  merchant_name : String
  deriving Repr, DecidableEq

/-- The SQL filter of `_is_duplicate`: same account, date within one day
either side, exactly equal amount. -/
def matchesWindow (account_id : String) (txn : Draft) (e : StoredTxn) : Bool :=
  decide (e.account_id = account_id)
    && decide (txn.date - 1 ≤ e.transaction_date)
    && decide (e.transaction_date ≤ txn.date + 1)
    && decide (e.amount = txn.amount)

/-- The merchant-name branch of `_is_duplicate`: the draft merchant name
(lowered) is non-empty (Python truthiness), the stored merchant name is
present and non-empty, and the two are equal after lowering.
`merchant_name` is the already-lowered draft merchant name. -/
def merchantEqBranch (merchant_name : String) (e : StoredTxn) : Bool :=
  decide (merchant_name ≠ "")
    && (match e.merchant_name with
        | some m => decide (m ≠ "") && decide (pyLower m = merchant_name)
        | none => false)

/-- The per-row similarity test of `_is_duplicate`: exact lowered
description equality, or the merchant branch, or containment of either
lowered description in the other.  `description` and `merchant_name`
are the already-lowered draft fields. -/
def similarDescription (description merchant_name : String) (e : StoredTxn) : Bool :=
  (decide (pyLower e.description = description) || merchantEqBranch merchant_name e)
    || (pyIn description (pyLower e.description) || pyIn (pyLower e.description) description)

/-- `TransactionService._is_duplicate`: filter the store by account,
date window and amount, then test each surviving row for similarity. -/
def is_duplicate (store : List StoredTxn) (account_id : String) (txn : Draft) : Bool :=
  let description := pyLower txn.description
  let merchant_name := pyLower txn.merchant_name
  let existing := store.filter (matchesWindow account_id txn)
  existing.any (similarDescription description merchant_name)

/-- Existential characterisation of `is_duplicate` (helper shared by the
duplicate-detector proofs). -/
theorem is_duplicate_eq_true_iff (store : List StoredTxn) (account_id : String)
    (txn : Draft) :
    is_duplicate store account_id txn = true ↔
      ∃ e ∈ store, matchesWindow account_id txn e = true ∧
        similarDescription (pyLower txn.description) (pyLower txn.merchant_name) e = true := by
  simp only [is_duplicate, List.any_eq_true, List.mem_filter]
  constructor
  · rintro ⟨e, ⟨he, hw⟩, hs⟩
    exact ⟨e, he, hw, hs⟩
  · rintro ⟨e, he, hw, hs⟩
    exact ⟨e, ⟨he, hw⟩, hs⟩

/-- Unfolding of the date/amount/account window as a proposition
(helper). -/
theorem matchesWindow_eq_true_iff (account_id : String) (txn : Draft) (e : StoredTxn) :
    matchesWindow account_id txn e = true ↔
      (e.account_id = account_id ∧ txn.date - 1 ≤ e.transaction_date ∧
        e.transaction_date ≤ txn.date + 1 ∧ e.amount = txn.amount) := by
  simp [matchesWindow, and_assoc]

/-- Unfolding of the per-row similarity test as a proposition (helper).
The first argument is the lowered draft description, the second the
lowered draft merchant name. -/
theorem similarDescription_eq_true_iff (d mlow : String) (e : StoredTxn) :
    similarDescription d mlow e = true ↔
      (pyLower e.description = d
        ∨ pyIn d (pyLower e.description) = true
        ∨ pyIn (pyLower e.description) d = true
        ∨ (mlow ≠ "" ∧ ∃ m, e.merchant_name = some m ∧ m ≠ "" ∧ pyLower m = mlow)) := by
  cases hm : e.merchant_name with
  | none => simp [similarDescription, merchantEqBranch, hm]
  | some m =>
    simp only [similarDescription, merchantEqBranch, hm, Bool.or_eq_true, Bool.and_eq_true,
      decide_eq_true_eq, Option.some.injEq]
    constructor
    · rintro ((h | ⟨h1, h2, h3⟩) | (h | h))
      · exact Or.inl h
      · exact Or.inr (Or.inr (Or.inr ⟨h1, m, rfl, h2, h3⟩))
      · exact Or.inr (Or.inl h)
      · exact Or.inr (Or.inr (Or.inl h))
    · rintro (h | h | h | ⟨h1, m2, hm2, h2, h3⟩)
      · exact Or.inl (Or.inl h)
      · exact Or.inr (Or.inl h)
      · exact Or.inr (Or.inr h)
      · subst hm2
        exact Or.inl (Or.inr ⟨h1, h2, h3⟩)

/-! ## Claim C1 -/

/-- The duplicate condition as claim C1 words it: the persisted
transaction has the same account, a date within one day, an exactly
equal amount, and its description or merchant name case-insensitively
equals, or is a substring of (in either direction), the draft
description. -/
def dupClaimMatch (draftDesc : String) (e : StoredTxn) : Bool :=
  let d := pyLower draftDesc
  (decide (pyLower e.description = d)
      || pyIn (pyLower e.description) d || pyIn d (pyLower e.description))
    || (match e.merchant_name with
        | some m => decide (pyLower m = d) || pyIn (pyLower m) d || pyIn d (pyLower m)
        | none => false)

/-- The whole duplicate classification as claim C1 words it. -/
def dupClaimPred (store : List StoredTxn) (account_id : String) (txn : Draft) : Bool :=
  store.any (fun e => matchesWindow account_id txn e && dupClaimMatch txn.description e)

/-- C1 fails on the code: the detector compares merchant names with each
other, never with the draft description.  A draft with description "X"
and merchant name "M" is classified duplicate against a stored row with
description "Y" and merchant name "M" (merchant equality fires), while
the condition of the claim is false there: neither "Y" nor "M" equals
or is related by containment to "X". -/
theorem c1_counterexample :
    is_duplicate [⟨"a", 0, 1, "Y", some "M"⟩] "a" ⟨0, 1, "X", "M"⟩ = true
      ∧ dupClaimPred [⟨"a", 0, 1, "Y", some "M"⟩] "a" ⟨0, 1, "X", "M"⟩ = false := by
  decide

/-- C1 amended: a draft is classified duplicate iff some persisted
transaction of the account has a date within one day, an exactly equal
amount, and either its lowered description equals the lowered draft
description, or one lowered description contains the other, or both
merchant names are non-empty and equal after lowering (the merchant
name of the draft is compared with the merchant name of the persisted
transaction, not with its description). -/
theorem c1_amended (store : List StoredTxn) (account_id : String) (txn : Draft) :
    is_duplicate store account_id txn = true ↔
      ∃ e ∈ store,
        (e.account_id = account_id ∧ txn.date - 1 ≤ e.transaction_date ∧
          e.transaction_date ≤ txn.date + 1 ∧ e.amount = txn.amount) ∧
        (pyLower e.description = pyLower txn.description
          ∨ pyIn (pyLower txn.description) (pyLower e.description) = true
          ∨ pyIn (pyLower e.description) (pyLower txn.description) = true
          ∨ (pyLower txn.merchant_name ≠ "" ∧
              ∃ m, e.merchant_name = some m ∧ m ≠ "" ∧
                pyLower m = pyLower txn.merchant_name)) := by
  simp only [is_duplicate_eq_true_iff, matchesWindow_eq_true_iff,
    similarDescription_eq_true_iff]

/-! ## Claim C7 -/

/-- C7 fails on the code: with identical account, date, amount and
merchant name, the draft "ABCDEF" contains the draft "ABC", and
"ABCDEF" is classified duplicate against a stored description "DEF"
(the stored description is contained in the draft description), yet
"ABC" is not related by containment to "DEF" in either direction, so
"ABC" is classified new. -/
theorem c7_counterexample :
    pyIn (pyLower "ABC") (pyLower "ABCDEF") = true
      ∧ is_duplicate [⟨"a", 0, 5, "DEF", none⟩] "a" ⟨0, 5, "ABCDEF", ""⟩ = true
      ∧ is_duplicate [⟨"a", 0, 5, "DEF", none⟩] "a" ⟨0, 5, "ABC", ""⟩ = false := by
  decide

/-- C7 amended: monotonicity under description containment holds when
the witness for D1 is a match on description equality, on D1 being
contained in the stored description, or on merchant-name equality (with
D1 and D2 sharing the merchant name); it can fail, as the
counterexample shows, when the only witness is a stored description
that is merely contained in D1. -/
theorem c7_amended (store : List StoredTxn) (account_id : String) (d1 d2 : Draft)
    (hdate : d2.date = d1.date) (hamt : d2.amount = d1.amount)
    (hmer : d2.merchant_name = d1.merchant_name)
    (hsub : pyIn (pyLower d2.description) (pyLower d1.description) = true)
    (e : StoredTxn) (he : e ∈ store)
    (hw : matchesWindow account_id d1 e = true)
    (hbr : pyLower e.description = pyLower d1.description
        ∨ pyIn (pyLower d1.description) (pyLower e.description) = true
        ∨ merchantEqBranch (pyLower d1.merchant_name) e = true) :
    is_duplicate store account_id d2 = true := by
  rw [is_duplicate_eq_true_iff]
  refine ⟨e, he, ?_, ?_⟩
  · simp only [matchesWindow, hdate, hamt] at hw ⊢
    exact hw
  · have key : pyIn (pyLower d2.description) (pyLower e.description) = true
        ∨ merchantEqBranch (pyLower d2.merchant_name) e = true := by
      rcases hbr with h | h | h
      · exact Or.inl (by rw [h]; exact hsub)
      · exact Or.inl (pyIn_trans hsub h)
      · exact Or.inr (by rw [hmer]; exact h)
    rcases key with hk | hk
    · simp [similarDescription, hk]
    · simp [similarDescription, hk]

/-- Concrete run of the amended C7 theorem: D1 = "ABCDEF" is matched
because the stored description "XABCDEFY" contains it, and D2 = "ABC"
is then a duplicate as well. -/
theorem c7_amended_witness :
    pyIn (pyLower "ABC") (pyLower "ABCDEF") = true
      ∧ is_duplicate [⟨"a", 0, 5, "XABCDEFY", none⟩] "a" ⟨0, 5, "ABC", ""⟩ = true := by
  refine ⟨by decide, ?_⟩
  exact c7_amended [⟨"a", 0, 5, "XABCDEFY", none⟩] "a" ⟨0, 5, "ABCDEF", ""⟩
    ⟨0, 5, "ABC", ""⟩ rfl rfl rfl (by decide) ⟨"a", 0, 5, "XABCDEFY", none⟩
    (by simp) (by decide) (Or.inr (Or.inl (by decide)))

/-! ## Claim C9 -/

/-- C9: a draft with empty description is classified duplicate as soon
as any persisted transaction of the account matches on the date window
and the amount, whatever its description and merchant name: the empty
string is a substring of every description. -/
theorem c9_empty_description (store : List StoredTxn) (account_id : String)
    (txn : Draft) (hdesc : txn.description = "")
    (e : StoredTxn) (he : e ∈ store)
    (hw : matchesWindow account_id txn e = true) :
    is_duplicate store account_id txn = true := by
  rw [is_duplicate_eq_true_iff]
  refine ⟨e, he, hw, ?_⟩
  have hlow : pyLower txn.description = "" := by rw [hdesc]; decide
  have hin : pyIn (pyLower txn.description) (pyLower e.description) = true := by
    rw [hlow]; exact pyIn_empty _
  simp [similarDescription, hin]

/-- Concrete run of C9: empty draft description, stored description
"PAYROLL" and merchant "ACME", same date and amount. -/
theorem c9_witness :
    is_duplicate [⟨"a", 10, 7, "PAYROLL", some "ACME"⟩] "a" ⟨10, 7, "", ""⟩ = true :=
  c9_empty_description [⟨"a", 10, 7, "PAYROLL", some "ACME"⟩] "a" ⟨10, 7, "", ""⟩
    rfl ⟨"a", 10, 7, "PAYROLL", some "ACME"⟩ (by simp) (by decide)

/-! ## Batch save — `TransactionService.save_transactions`
(src/backend/app/services/transaction_service.py, lines 108-156)

Each draft dict becomes one `Transaction` row; the `.get` defaults of
the source are the `Option` defaults below.  Dates are kept in their
string form (the source only converts the string to a date value). -/

/-- A draft dict as passed to `save_transactions`. -/
structure DraftIn where
  date : String
  amount : Option Rat
  currency : Option String
  description : Option String
  merchant_name : Option String
  category : Option String
  subcategory : Option String
  confidence : Option Rat
  notes : Option String
  deriving Repr, DecidableEq

/-- A persisted `Transaction` row as built by `save_transactions`. -/
structure TransactionRec where
  account_id : String
  user_id : String
  transaction_date : String
  amount : Rat
  currency : String
  description : String
  merchant_name : Option String
  category : Option String
  subcategory : Option String
  confidence_score : Option Rat
  ai_categorized : Bool
  user_verified : Bool
  notes : Option String
  deriving Repr, DecidableEq

/-- The row constructor of the loop body of `save_transactions`. -/
def mkTransaction (account_id user_id : String) (txn_data : DraftIn) : TransactionRec where
  account_id := account_id
  user_id := user_id
  transaction_date := txn_data.date
  amount := txn_data.amount.getD 0
  currency := txn_data.currency.getD "USD"
  description := txn_data.description.getD ""
  merchant_name := txn_data.merchant_name
  category := txn_data.category
  subcategory := txn_data.subcategory
  confidence_score := txn_data.confidence
  ai_categorized := txn_data.category.isSome
  user_verified := false
  notes := txn_data.notes

/-- `TransactionService.save_transactions`: returns the rows added to
the session and the saved count. -/
def save_transactions (account_id user_id : String)
    (transactions : List DraftIn) : List TransactionRec × Nat :=
  if transactions.isEmpty then ([], 0)
  else
    let recs := transactions.map (mkTransaction account_id user_id)
    (recs, recs.length)

/-! ## Claim C10 -/

/-- C10: every row persisted by the batch save has `user_verified`
false, and has `ai_categorized` true exactly when the draft category
field is non-null — the categorization method is never consulted. -/
theorem c10_save_flags (account_id user_id : String) (transactions : List DraftIn) :
    (save_transactions account_id user_id transactions).1
        = transactions.map (mkTransaction account_id user_id)
      ∧ ∀ t : DraftIn,
          (mkTransaction account_id user_id t).user_verified = false
          ∧ ((mkTransaction account_id user_id t).ai_categorized = true ↔
              t.category ≠ none) := by
  constructor
  · by_cases h : transactions.isEmpty
    · rw [List.isEmpty_iff] at h
      simp [save_transactions, h]
    · simp [save_transactions, h]
  · intro t
    refine ⟨rfl, ?_⟩
    simp [mkTransaction, Option.isSome_iff_ne_none]

/-! ## Pipeline stages — `ProcessingStage`
(src/backend/app/services/statement_processor.py, lines 33-45) -/

/-- The stage constants of the pipeline, in the order of the state
machine; `failed` is the error state. -/
inductive Stage where
  | uploading
  | parsing
  | analyzing
  | matching_account
  | awaiting_confirmation
  | extracting_transactions
  | checking_duplicates
  | saving
  | completed
  | failed
  deriving Repr, DecidableEq

/-- The string constant of each stage, as in the source. -/
def Stage.str : Stage → String
  | .uploading => "uploading"
  | .parsing => "parsing"
  | .analyzing => "analyzing"
  | .matching_account => "matching_account"
  | .awaiting_confirmation => "awaiting_confirmation"
  | .extracting_transactions => "extracting_transactions"
  | .checking_duplicates => "checking_duplicates"
  | .saving => "saving"
  | .completed => "completed"
  | .failed => "failed"

/-- Position of a stage in the forward order of the state machine. -/
def stageIdx : Stage → Nat
  | .uploading => 0
  | .parsing => 1
  | .analyzing => 2
  | .matching_account => 3
  | .awaiting_confirmation => 4
  | .extracting_transactions => 5
  | .checking_duplicates => 6
  | .saving => 7
  | .completed => 8
  | .failed => 9

/-! ## Job store — `SyncJobService`
(src/backend/app/services/sync_job_service.py)

The persisted job table is modelled as an association list keyed by job
id.  A job progress dict is a percentage and a message; the job meta
dict is an association list of strings. -/

/-- A persisted `SyncJob` row, restricted to the fields the handlers
read and write. -/
structure JobRec where
  user_id : String
  status : String
  stage : Stage
  progress_percentage : Nat
  progress_message : String
  error_message : Option String
  completed_at_marked : Bool
  meta : List (String × String)
  deriving Repr, DecidableEq

/-- Python dict `update`: entries of `new` replace entries of `old`
with the same key. -/
def dictUpdate (old new : List (String × String)) : List (String × String) :=
  old.filter (fun p => !(new.any (fun q => decide (q.1 = p.1)))) ++ new

/-- `SyncJobService.get_job`: filter by id, optionally by user, take
the first row. -/
def get_job (db : List (String × JobRec)) (job_id : String)
    (user_id : Option String) : Option JobRec :=
  (((db.filter (fun p => decide (p.1 = job_id))).filter
      (fun p => match user_id with
        | some u => decide (p.2.user_id = u)
        | none => true)).head?).map Prod.snd

/-- The field updates of `SyncJobService.update_job` applied to one
row.  `None` arguments leave the field alone; a present but empty
string is also skipped (Python truthiness of `if status:`). -/
def applyJobUpdate (status : Option String) (stage : Option Stage)
    (progress : Option (Nat × String)) (error_message : Option String)
    (metadata : Option (List (String × String))) (job : JobRec) : JobRec :=
  let job := match status with
    | some s => if s = "" then job else { job with status := s }
    | none => job
  let job := match stage with
    | some st => { job with stage := st }
    | none => job
  let job := match progress with
    | some p => { job with progress_percentage := p.1, progress_message := p.2 }
    | none => job
  let job := match error_message with
    | some e => if e = "" then job else { job with error_message := some e }
    | none => job
  let job := match metadata with
    | some m => { job with meta := dictUpdate job.meta m }
    | none => job
  match status with
  | some s =>
      if s = "completed" ∨ s = "failed" then { job with completed_at_marked := true }
      else job
  | none => job

/-- `SyncJobService.update_job`: look the row up by id (no user
filter), apply the field updates and save; ids are unique in the
store.  Returns the new store and the updated row. -/
def update_job (db : List (String × JobRec)) (job_id : String)
    (status : Option String) (stage : Option Stage)
    (progress : Option (Nat × String)) (error_message : Option String)
    (metadata : Option (List (String × String))) :
    List (String × JobRec) × Option JobRec :=
  if db.any (fun p => decide (p.1 = job_id)) then
    let db2 := db.map (fun p =>
      if p.1 = job_id then
        (p.1, applyJobUpdate status stage progress error_message metadata p.2)
      else p)
    (db2, get_job db2 job_id none)
  else (db, none)

/-! ## Confirmation endpoint — `confirm_account`
(src/backend/app/api/chat.py, lines 157-209)

The handler reads the job, rejects with 404 when it is missing and
with 400 when its stage is not `awaiting_confirmation`; only then does
it write to the store (status running, stage extracting_transactions,
progress 65).  Building `new_account_data` touches no persistent
state and the resumed background task is modelled with the
orchestrator, so both are outside this function. -/

/-- The request body of the confirmation endpoint. -/
structure ConfirmRequest where
  job_id : String
  account_id : Option String
  create_new_account : Bool
  new_account_name : Option String
  deriving Repr, DecidableEq

/-- Outcome of the confirmation endpoint: an HTTP error or the
acknowledgement payload. -/
inductive ConfirmOutcome where
  | httpError (code : Nat) (detail : String)
  | accepted (message job_id : String)
  deriving Repr, DecidableEq

/-- The `confirm_account` handler: store after the call and outcome. -/
def confirm_account (db : List (String × JobRec)) (current_user_id : String)
    (req : ConfirmRequest) : List (String × JobRec) × ConfirmOutcome :=
  match get_job db req.job_id (some current_user_id) with
  | none => (db, .httpError 404 ("Job " ++ req.job_id ++ " not found"))
  | some job =>
    if job.stage ≠ Stage.awaiting_confirmation then
      (db, .httpError 400
        ("Job is not awaiting confirmation (current stage: " ++ job.stage.str ++ ")"))
    else
      let upd := update_job db req.job_id (some "running")
        (some Stage.extracting_transactions)
        (some (65, "Account confirmed. Resuming processing...")) none none
      (upd.1, .accepted "Account confirmed. Continuing import..." req.job_id)

/-! ## Claim C4 -/

/-- C4: a confirmation call for a job whose stage is not
`awaiting_confirmation` is rejected with a 400 caller error and the
store — hence the job stage, progress and payload — is returned
unchanged: the handler raises before any `update_job` call. -/
theorem c4_confirm_rejected (db : List (String × JobRec)) (uid : String)
    (req : ConfirmRequest) (job : JobRec)
    (hget : get_job db req.job_id (some uid) = some job)
    (hstage : job.stage ≠ Stage.awaiting_confirmation) :
    confirm_account db uid req =
      (db, ConfirmOutcome.httpError 400
        ("Job is not awaiting confirmation (current stage: " ++ job.stage.str ++ ")")) := by
  unfold confirm_account
  rw [hget]
  simp [hstage]

/-- Concrete run of C4: a job in stage `parsing` is rejected and the
store is untouched. -/
theorem c4_confirm_rejected_witness :
    confirm_account
        [("j1", ⟨"u1", "running", Stage.parsing, 10, "Parsing CSV file...",
          none, false, []⟩)] "u1" ⟨"j1", none, false, none⟩ =
      ([("j1", ⟨"u1", "running", Stage.parsing, 10, "Parsing CSV file...",
          none, false, []⟩)],
        ConfirmOutcome.httpError 400
          ("Job is not awaiting confirmation (current stage: "
            ++ (Stage.parsing).str ++ ")")) :=
  c4_confirm_rejected
    [("j1", ⟨"u1", "running", Stage.parsing, 10, "Parsing CSV file...",
      none, false, []⟩)] "u1" ⟨"j1", none, false, none⟩
    ⟨"u1", "running", Stage.parsing, 10, "Parsing CSV file...", none, false, []⟩
    (by decide) (by decide)

/-! ## Categorization flow — `categorize_batch` / `save_categorizations`
(src/backend/app/flows/categorize_transactions.py, lines 10-76, and
src/backend/app/services/categorization.py)

The completion service is an oracle from the batch needing AI to an
optional parsed result list (`none` models a `json.loads` failure,
which propagates out of the task).  A parsed result is a dict whose
`method` key may be absent (`Option`): the prompt of the flow asks for
id, category, subcategory, is_recurring, confidence and reasoning, so
a schema-conforming response carries no `method` key. -/

/-- A transaction as fed to the categorization flow. -/
structure CatTxn where
  id : String
  merchant_name : Option String
  description : String
  deriving Repr, DecidableEq

/-- A learned categorization rule dict. -/
structure RuleRec where
  category : String
  subcategory : Option String
  confidence_score : Rat
  deriving Repr, DecidableEq

/-- A categorization result dict, as built for rule matches or parsed
from the completion response. -/
structure CatResult where
  id : String
  category : String
  subcategory : Option String
  is_recurring : Option Bool
  confidence : Rat
  reasoning : Option String
  method : Option String
  deriving Repr, DecidableEq

/-- `check_categorization_rules` of the categorization service: the
body is a TODO stub that always returns `None`. -/
def check_categorization_rules (_merchant_name : Option String)
    (_description : String) : Option RuleRec :=
  none

/-- `create_categorization_rule` of the categorization service: the
body is a TODO stub (`pass`), so no rule row is ever written. -/
def create_categorization_rule (_result : CatResult) : List RuleRec :=
  []

/-- `categorize_batch`: split the batch between rule matches with
confidence above 0.8 (tagged method `rule`) and the rest, which is
sent to the completion service; returns `none` when the response fails
to parse. -/
def categorize_batch (aiResp : List CatTxn → Option (List CatResult))
    (transaction_batch : List CatTxn) : Option (List CatResult) :=
  let checked := transaction_batch.map
    (fun txn => (txn, check_categorization_rules txn.merchant_name txn.description))
  let categorized_by_rules := checked.filterMap (fun p =>
    match p.2 with
    | some rule =>
        if decide ((0.8 : Rat) < rule.confidence_score) then
          some ⟨p.1.id, rule.category, rule.subcategory, none,
                rule.confidence_score, none, some "rule"⟩
        else none
    | none => none)
  let needs_ai := checked.filterMap (fun p =>
    match p.2 with
    | some rule =>
        if decide ((0.8 : Rat) < rule.confidence_score) then none else some p.1
    | none => some p.1)
  let ai_results := if needs_ai.isEmpty then some [] else aiResp needs_ai
  ai_results.map (fun rs => categorized_by_rules ++ rs)

/-- A transaction-category update as issued by `save_categorizations`. -/
structure TxnCatUpdate where
  transaction_id : String
  category : String
  subcategory : Option String
  confidence : Rat
  ai_categorized : Bool
  deriving Repr, DecidableEq

/-- `save_categorizations`: the category updates, and the results for
which `create_categorization_rule` is invoked — exactly those with
`method == "ai"` and confidence above 0.9. -/
def save_categorizations (categorization_results : List CatResult) :
    List TxnCatUpdate × List CatResult :=
  (categorization_results.map (fun result =>
      ⟨result.id, result.category, result.subcategory, result.confidence,
        decide (result.method = some "ai")⟩),
   categorization_results.filter (fun result =>
      decide (result.method = some "ai") && decide ((0.9 : Rat) < result.confidence)))

/-! ## Claim C3 -/

/-- The failing input of C3: one transaction with no matching rule. -/
def c3_txn : CatTxn := ⟨"t1", some "Starbucks", "STARBUCKS 4821"⟩

/-- The completion response for C3: a result conforming to the prompt
schema of the flow (id, category, subcategory, is_recurring,
confidence, reasoning — no method key) with confidence 0.95. -/
def c3_ai_result : CatResult :=
  ⟨"t1", "Food", some "Coffee Shops", some false, 0.95, some "coffee merchant", none⟩

/-- The completion-service oracle for the C3 run. -/
def c3_resp : List CatTxn → Option (List CatResult) :=
  fun _ => some [c3_ai_result]

/-- C3 fails on the code: the transaction is classified by the AI tier
with confidence 0.95 > 0.9, yet `save_categorizations` never invokes
`create_categorization_rule` for it, because parsed responses carry no
method key (`result.get("method")` is `None`, not `"ai"`); moreover
`create_categorization_rule` itself is an empty TODO stub. -/
theorem c3_code_bug_eval :
    categorize_batch c3_resp [c3_txn] = some [c3_ai_result]
      ∧ (0.9 : Rat) < c3_ai_result.confidence
      ∧ (save_categorizations [c3_ai_result]).2 = []
      ∧ create_categorization_rule c3_ai_result = [] := by
  refine ⟨rfl, ?_, rfl, rfl⟩
  show (0.9 : Rat) < 0.95
  norm_num

/-! ## Batched AI categorization — `categorize_transactions_batch`
(src/backend/app/services/ai_service.py, lines 370-473)

The loop over slices of 30 is modelled over the chunk list; the
completion service is an oracle from the chunk ordinal to an optional
parsed result (`none` models a `json.JSONDecodeError`, which the
source catches per batch). -/

/-- A transaction dict of the batched categorization path. -/
structure BatchTxn where
  date : String
  amount : Rat
  description : String
  merchant_name : String
  category : Option String
  subcategory : Option String
  confidence : Option Rat
  deriving Repr, DecidableEq

/-- The per-transaction fallback of the `except` branch: category
Other, subcategory Uncategorized, confidence 0.0, other fields kept. -/
def degradeTxn (txn : BatchTxn) : BatchTxn :=
  { txn with
    category := some "Other"
    subcategory := some "Uncategorized"
    confidence := some 0 }

/-- Fuel-driven worker for the slicing loop; the fuel is the list
length, which bounds the number of slices, so the zero-fuel case with
a non-empty list is never reached. -/
def chunks30Go {α : Type} : Nat → List α → List (List α)
  | _, [] => []
  | 0, _ :: _ => []
  | Nat.succ fuel, x :: xs => ((x :: xs).take 30) :: chunks30Go fuel ((x :: xs).drop 30)

/-- The slices `transactions[i : i + 30]` of the batching loop. -/
def chunks30 {α : Type} (l : List α) : List (List α) :=
  chunks30Go l.length l

/-- One iteration of the batching loop: the parsed response of the
chunk, or the degraded chunk when parsing failed. -/
def batchSegment (resp : Nat → Option (List BatchTxn))
    (p : Nat × List BatchTxn) : List BatchTxn :=
  match resp p.1 with
  | some categorized_batch => categorized_batch
  | none => p.2.map degradeTxn

/-- `categorize_transactions_batch`: early return on the empty list,
then the accumulating loop over the chunks. -/
def categorize_transactions_batch (resp : Nat → Option (List BatchTxn))
    (transactions : List BatchTxn) : List BatchTxn :=
  if transactions.isEmpty then []
  else
    (chunks30 transactions).enum.foldl
      (fun all_categorized p => all_categorized ++ batchSegment resp p) []

/-- Accumulating a list-valued function over a fold is the join of its
map (helper). -/
theorem foldl_append_eq_join {α β : Type} (f : α → List β) :
    ∀ (l : List α) (acc : List β),
      l.foldl (fun a x => a ++ f x) acc = acc ++ (l.map f).flatten := by
  intro l
  induction l with
  | nil => intro acc; simp
  | cons x xs ih => intro acc; simp [ih, List.append_assoc]

/-! ## Claim C5 -/

/-- C5: the output is the chunkwise concatenation of per-batch
segments; a batch whose response fails to parse is replaced by its
degraded copy (category Other, subcategory Uncategorized, confidence
0, identity fields kept); a batch whose response parses contributes
exactly the parsed results; and each segment depends only on the
response of its own batch, so the failure leaves every other batch
unaffected and the function still returns (the job proceeds). -/
theorem c5_batch_failure_isolated (transactions : List BatchTxn)
    (resp : Nat → Option (List BatchTxn)) (i : Nat) (hfail : resp i = none) :
    categorize_transactions_batch resp transactions
        = ((chunks30 transactions).enum.map (batchSegment resp)).flatten
      ∧ (∀ b, batchSegment resp (i, b) = b.map degradeTxn)
      ∧ (∀ t : BatchTxn, (degradeTxn t).category = some "Other"
          ∧ (degradeTxn t).subcategory = some "Uncategorized"
          ∧ (degradeTxn t).confidence = some 0
          ∧ (degradeTxn t).date = t.date ∧ (degradeTxn t).amount = t.amount
          ∧ (degradeTxn t).description = t.description
          ∧ (degradeTxn t).merchant_name = t.merchant_name)
      ∧ (∀ j r, resp j = some r → ∀ b, batchSegment resp (j, b) = r)
      ∧ (∀ resp2 : Nat → Option (List BatchTxn),
          (∀ j, j ≠ i → resp2 j = resp j) →
          ∀ j b, j ≠ i → batchSegment resp2 (j, b) = batchSegment resp (j, b)) := by
  refine ⟨?_, ?_, ?_, ?_, ?_⟩
  · by_cases h : transactions.isEmpty
    · rw [List.isEmpty_iff] at h
      subst h
      rfl
    · simp only [categorize_transactions_batch, h, Bool.false_eq_true, if_false]
      simpa using foldl_append_eq_join (batchSegment resp)
        (chunks30 transactions).enum []
  · intro b
    simp [batchSegment, hfail]
  · intro t
    exact ⟨rfl, rfl, rfl, rfl, rfl, rfl, rfl⟩
  · intro j r hj b
    simp [batchSegment, hj]
  · intro resp2 hagree j b hne
    simp [batchSegment, hagree j hne]

/-- The transactions of the concrete C5 run: 31 identical rows, hence
one full chunk of 30 and one chunk of 1. -/
def c5_txn : BatchTxn := ⟨"2024-01-02", -3, "COFFEE", "COFFEE", none, none, none⟩

/-- The parsed result the second chunk receives in the C5 run. -/
def c5_ok : BatchTxn :=
  ⟨"2024-01-02", -3, "COFFEE", "COFFEE", some "Food", some "Coffee Shops", some 1⟩

/-- The completion oracle of the C5 run: the first chunk fails to
parse, the second parses. -/
def c5_resp : Nat → Option (List BatchTxn) :=
  fun n => if n = 0 then none else some [c5_ok]

/-- Concrete run of C5: the first chunk of 30 degrades to
Other/Uncategorized/0.0, the second chunk is returned as parsed. -/
theorem c5_batch_failure_isolated_witness :
    c5_resp 0 = none
      ∧ categorize_transactions_batch c5_resp (List.replicate 31 c5_txn)
          = List.replicate 30 (degradeTxn c5_txn) ++ [c5_ok]
      ∧ categorize_transactions_batch c5_resp (List.replicate 31 c5_txn)
          = ((chunks30 (List.replicate 31 c5_txn)).enum.map
              (batchSegment c5_resp)).flatten :=
  ⟨rfl, by decide,
    (c5_batch_failure_isolated (List.replicate 31 c5_txn) c5_resp 0 rfl).1⟩

/-! ## Account matcher — `suggest_account_match`
(src/backend/app/services/ai_service.py, lines 476-546)

The completion call is an oracle returning the parsed suggestion, or
`none` on a `json.JSONDecodeError`; only the fallback branch is local
computation. -/

/-- The statement metadata fields read by the matcher; `none` stands
for an absent key. -/
structure StatementMeta where
  institution : Option String
  account_type : Option String
  account_number_last4 : Option String
  deriving Repr, DecidableEq

/-- A candidate account. -/
structure AccountRec where
  id : String
  institution : Option String
  account_type : Option String
  account_number_last4 : Option String
  deriving Repr, DecidableEq

/-- The structured decision of the matcher. -/
structure MatchSuggestion where
  suggested_account_id : Option String
  confidence : Rat
  reasoning : String
  should_create_new : Bool
  suggested_account_name : Option String
  deriving Repr, DecidableEq

/-- Python `str.title()` (ASCII): the first letter of each run of
letters is uppercased, the rest lowercased. -/
def pyTitleGo : Bool → List Char → List Char
  | _, [] => []
  | prevAlpha, c :: t =>
    if c.isAlpha then
      (if prevAlpha then c.toLower else c.toUpper) :: pyTitleGo true t
    else c :: pyTitleGo false t

/-- Python `str.title()` on a string. -/
def pyTitle (s : String) : String :=
  String.mk (pyTitleGo false s.toList)

/-- The generated account name of the fallback branch:
institution, blank, title-cased account type, and the last-4 suffix
when the last4 string is non-empty (Python truthiness). -/
def fallback_account_name (statement_metadata : StatementMeta) : String :=
  let institution := statement_metadata.institution.getD "Unknown"
  let account_type := statement_metadata.account_type.getD "Unknown"
  let last4 := statement_metadata.account_number_last4.getD ""
  let account_name := institution ++ " " ++ pyTitle account_type
  if last4 ≠ "" then account_name ++ " (..." ++ last4 ++ ")" else account_name

/-- `suggest_account_match`: the parsed completion response when it
parses, otherwise the local fallback — a fixed create-new decision
with confidence 0.0 that never reads the candidate list. -/
def suggest_account_match (resp : Option MatchSuggestion)
    (statement_metadata : StatementMeta)
    (_user_accounts : List AccountRec) : MatchSuggestion :=
  match resp with
  | some suggestion => suggestion
  | none =>
    { suggested_account_id := none
      confidence := 0
      reasoning := "Unable to parse AI response"
      should_create_new := true
      suggested_account_name := some (fallback_account_name statement_metadata) }

/-- Modelled from the spec (section 4.3 and claim C8): the tiered
account-matching heuristic — institution + account type + last-4 gives
confidence 1.0, institution + account type gives 0.8, account type
alone gives 0.5, and below combined confidence 0.7 or without
candidates a new account is recommended with the generated name.  Ties
inside a tier are broken by taking the first candidate. -/
def tieredMatch (md : StatementMeta) (accounts : List AccountRec) : MatchSuggestion :=
  let instMatch := fun (a : AccountRec) =>
    md.institution.isSome && decide (a.institution = md.institution)
  let typeMatch := fun (a : AccountRec) =>
    md.account_type.isSome && decide (a.account_type = md.account_type)
  let l4Match := fun (a : AccountRec) =>
    md.account_number_last4.isSome && decide (a.account_number_last4 = md.account_number_last4)
  let baseName := (md.institution.getD "Unknown") ++ " "
    ++ pyTitle (md.account_type.getD "Unknown")
  let newName := match md.account_number_last4 with
    | some l4 => baseName ++ " (..." ++ l4 ++ ")"
    | none => baseName
  match (accounts.filter (fun a => instMatch a && typeMatch a && l4Match a)).head? with
  | some a => ⟨some a.id, 1, "institution, account type and last four digits match",
      false, none⟩
  | none =>
    match (accounts.filter (fun a => instMatch a && typeMatch a)).head? with
    | some a => ⟨some a.id, 0.8, "institution and account type match", false, none⟩
    | none =>
      match (accounts.filter typeMatch).head? with
      | some a => ⟨some a.id, 0.5, "account type matches", true, some newName⟩
      | none => ⟨none, 0, "no candidate matches", true, some newName⟩

/-! ## Claim C8 -/

/-- C8 fails on the code: with metadata Chase/checking/1234 and one
candidate with identical fields, the tiered heuristic returns that
account with confidence 1.0 and no create-new recommendation, but the
local fallback of the source returns confidence 0.0 and recommends
creating a new account: the fallback does not implement the tier
logic. -/
theorem c8_counterexample :
    suggest_account_match none ⟨some "Chase", some "checking", some "1234"⟩
          [⟨"acc-1", some "Chase", some "checking", some "1234"⟩]
        ≠ tieredMatch ⟨some "Chase", some "checking", some "1234"⟩
          [⟨"acc-1", some "Chase", some "checking", some "1234"⟩]
      ∧ (suggest_account_match none ⟨some "Chase", some "checking", some "1234"⟩
          [⟨"acc-1", some "Chase", some "checking", some "1234"⟩]).confidence = 0
      ∧ (suggest_account_match none ⟨some "Chase", some "checking", some "1234"⟩
          [⟨"acc-1", some "Chase", some "checking", some "1234"⟩]).should_create_new = true
      ∧ (tieredMatch ⟨some "Chase", some "checking", some "1234"⟩
          [⟨"acc-1", some "Chase", some "checking", some "1234"⟩]).confidence = 1
      ∧ (tieredMatch ⟨some "Chase", some "checking", some "1234"⟩
          [⟨"acc-1", some "Chase", some "checking", some "1234"⟩]).should_create_new
            = false := by
  decide

/-- C8 amended: when the completion response cannot be parsed, the
local fallback ignores the candidate list entirely and always returns
a create-new decision with confidence 0.0, no suggested account, and
the generated name; when the response parses, it is returned as-is. -/
theorem c8_amended (md : StatementMeta) (accounts accounts2 : List AccountRec) :
    suggest_account_match none md accounts = suggest_account_match none md accounts2
      ∧ (suggest_account_match none md accounts).suggested_account_id = none
      ∧ (suggest_account_match none md accounts).confidence = 0
      ∧ (suggest_account_match none md accounts).should_create_new = true
      ∧ (suggest_account_match none md accounts).suggested_account_name
          = some (fallback_account_name md)
      ∧ ∀ s, suggest_account_match (some s) md accounts = s :=
  ⟨rfl, rfl, rfl, rfl, rfl, fun _ => rfl⟩

/-! ## Orchestrator — `StatementProcessor` and the chat handlers
(src/backend/app/services/statement_processor.py and
src/backend/app/api/chat.py)

The status object and the two pipeline halves are embedded with every
fallible external step (file parsing, structure analysis, account
listing, account matching, account creation, transaction extraction,
duplicate query, batch save) given as an `Except`/`Option` input: the
error side carries the exception message.  The trace of a run is the
list of status snapshots after the constructor and after every
`update`/`set_error` call, together with the stage values written to
the job row by the chat handlers. -/

/-- Python `s.upper()` character-wise (for the parsing message). -/
def pyUpper (s : String) : String :=
  String.mk (s.toList.map Char.toUpper)

/-- `ProcessingStatus`. -/
structure PStatus where
  job_id : String
  stage : Stage
  progress : Nat
  message : String
  error : Option String
  deriving Repr, DecidableEq

/-- The `ProcessingStatus` constructor. -/
def PStatus.init (job_id : String) : PStatus :=
  ⟨job_id, Stage.uploading, 0, "File uploaded, initializing processing...", none⟩

/-- `ProcessingStatus.update`. -/
def PStatus.update (s : PStatus) (stage : Stage) (progress : Nat)
    (message : String) : PStatus :=
  { s with stage := stage, progress := progress, message := message }

/-- `ProcessingStatus.set_error`. -/
def PStatus.set_error (s : PStatus) (error : String) : PStatus :=
  { s with
    stage := Stage.failed
    error := some error
    message := "Processing failed: " ++ error }

/-- `StatementProcessor.process_statement` as its snapshot trace.
`parseErr` is the error entry of the `_parse_file` result (that helper
catches its own exceptions); `analyzeRes` carries the institution of
the analyzed metadata for the progress message; `accountsRes` and
`matchRes` are the remaining fallible awaits before the suspension
point. -/
def processStatement (fileType job_id : String) (parseErr : Option String)
    (analyzeRes : Except String (Option String))
    (accountsRes matchRes : Except String Unit) : List PStatus :=
  let s0 := PStatus.init job_id
  let s1 := s0.update Stage.parsing 10 ("Parsing " ++ pyUpper fileType ++ " file...")
  match parseErr with
  | some e => [s0, s1, s1.set_error e]
  | none =>
    let s2 := s1.update Stage.parsing 25 "File parsed successfully"
    let s3 := s2.update Stage.analyzing 30 "Analyzing statement structure with AI..."
    match analyzeRes with
    | .error e => [s0, s1, s2, s3, s3.set_error e]
    | .ok institution =>
      let s4 := s3.update Stage.analyzing 40
        ("Identified " ++ institution.getD "unknown" ++ " statement")
      let s5 := s4.update Stage.matching_account 45 "Matching to your accounts..."
      match accountsRes with
      | .error e => [s0, s1, s2, s3, s4, s5, s5.set_error e]
      | .ok _ =>
        match matchRes with
        | .error e => [s0, s1, s2, s3, s4, s5, s5.set_error e]
        | .ok _ =>
          let s6 := s5.update Stage.matching_account 55 "Account match found"
          let s7 := s6.update Stage.awaiting_confirmation 60
            "Waiting for account confirmation..."
          [s0, s1, s2, s3, s4, s5, s6, s7]

/-- `StatementProcessor.continue_after_confirmation` as its snapshot
trace, starting from the status rebuilt from the job row.  `createRes`
is the optional account-creation call; `txnRes` covers the payload
reads and the extraction step (its value is the transaction count for
the progress message); `dupRes` carries the duplicate and new counts;
`saveRes` the saved count. -/
def continueAfterConfirmation (s0 : PStatus)
    (createRes : Option (Except String Unit)) (txnRes : Except String Nat)
    (dupRes : Except String (Nat × Nat)) (saveRes : Except String Nat) :
    List PStatus :=
  match createRes with
  | some (.error e) => [s0, s0.set_error e]
  | _ =>
    let s1 := s0.update Stage.extracting_transactions 65 "Extracting transactions..."
    match txnRes with
    | .error e => [s0, s1, s1.set_error e]
    | .ok n =>
      let s2 := s1.update Stage.extracting_transactions 75
        ("Extracted " ++ toString n ++ " transactions")
      let s3 := s2.update Stage.checking_duplicates 80
        "Checking for duplicate transactions..."
      match dupRes with
      | .error e => [s0, s1, s2, s3, s3.set_error e]
      | .ok counts =>
        let s4 := s3.update Stage.checking_duplicates 85
          ("Found " ++ toString counts.1 ++ " duplicates, "
            ++ toString counts.2 ++ " new transactions")
        let s5 := s4.update Stage.saving 90 "Saving transactions to database..."
        match saveRes with
        | .error e => [s0, s1, s2, s3, s4, s5, s5.set_error e]
        | .ok saved =>
          let s6 := s5.update Stage.completed 100
            ("Successfully imported " ++ toString saved ++ " transactions")
          [s0, s1, s2, s3, s4, s5, s6]

/-- The stage values recorded over a whole job lifetime: the upload
handler starts the job in `uploading` and runs `process_statement`;
the confirmation handler only resumes when the recorded stage is
`awaiting_confirmation`, writes `extracting_transactions` to the job
row, and `continue_after_confirmation` then starts from the status
rebuilt from that row. -/
def lifecycleStages (fileType job_id : String) (parseErr : Option String)
    (analyzeRes : Except String (Option String))
    (accountsRes matchRes : Except String Unit) (confirmed : Bool)
    (createRes : Option (Except String Unit)) (txnRes : Except String Nat)
    (dupRes : Except String (Nat × Nat)) (saveRes : Except String Nat) :
    List Stage :=
  let p := processStatement fileType job_id parseErr analyzeRes accountsRes matchRes
  let pStages := p.map (fun s => s.stage)
  let finalStage := (p.getLast?).elim Stage.uploading (fun s => s.stage)
  if (finalStage == Stage.awaiting_confirmation) && confirmed then
    let dbStatus : PStatus := ⟨job_id, Stage.extracting_transactions, 65,
      "Account confirmed. Resuming processing...", none⟩
    pStages ++ [Stage.extracting_transactions]
      ++ (continueAfterConfirmation dbStatus createRes txnRes dupRes saveRes).map
          (fun s => s.stage)
  else pStages

/-- One step of the forward-only order: the first stage is not
`failed` (failed is terminal, nothing is recorded after it) and the
second either does not move backwards or is `failed`. -/
def stageStepOK (a b : Stage) : Bool :=
  !(decide (a = Stage.failed))
    && (decide (stageIdx a ≤ stageIdx b) || decide (b = Stage.failed))

/-- A stage sequence respects the forward-only order with `failed` as
the only terminal exception. -/
def stagesOK : List Stage → Bool
  | [] => true
  | [_] => true
  | a :: b :: t => stageStepOK a b && stagesOK (b :: t)

/-! ## Claim C2 -/

/-- C2: whatever the outcomes of every fallible step and whether or not
the job is confirmed, the stage sequence recorded over the lifetime of
a job respects the forward-only order
uploading, parsing, analyzing, matching_account, awaiting_confirmation,
extracting_transactions, checking_duplicates, saving, completed, with a
transition into failed the only exception, failed terminal, and no
backward move. -/
theorem c2_stage_monotone (fileType job_id : String) (parseErr : Option String)
    (analyzeRes : Except String (Option String))
    (accountsRes matchRes : Except String Unit) (confirmed : Bool)
    (createRes : Option (Except String Unit)) (txnRes : Except String Nat)
    (dupRes : Except String (Nat × Nat)) (saveRes : Except String Nat) :
    stagesOK (lifecycleStages fileType job_id parseErr analyzeRes accountsRes
      matchRes confirmed createRes txnRes dupRes saveRes) = true := by
  rcases parseErr with _ | e
  all_goals rcases analyzeRes with e1 | inst
  all_goals rcases accountsRes with e2 | a2
  all_goals rcases matchRes with e3 | m3
  all_goals cases confirmed
  all_goals rcases createRes with _ | e4 | u4
  all_goals rcases txnRes with e5 | n5
  all_goals rcases dupRes with e6 | ⟨d6, n6⟩
  all_goals rcases saveRes with e7 | s7
  all_goals rfl

/-! ## Tabular parser — `parse_csv_file`
(src/backend/app/utils/csv_parser.py, lines 195-263)

The per-cell values of a data row are modelled as optional strings
(`none` is a missing/NaN cell).  `parse_amount` (lines 71-98) is
embedded fully, with Python `float()` restricted to the alphabet left
by its character strip.  `parse_date` chains `datetime.strptime`
formats with a pandas fallback — both external library calls — and is
therefore a parameter of the embedding, as is the regex-based
`clean_merchant_name`; the row-retention property quantifies over
both, so it holds in particular for the real ones. -/

/-- A data row of the CSV after column normalization. -/
structure CsvRow where
  date : Option String
  amount : Option String
  description : Option String
  merchant_name : Option String
  deriving Repr, DecidableEq

/-- A normalized output transaction of the tabular parser. -/
structure ParsedRow where
  date : String
  amount : Rat
  description : String
  merchant_name : String
  deriving Repr, DecidableEq

/-- Numeric value of a digit run. -/
def digitsVal (cs : List Char) : Nat :=
  cs.foldl (fun a c => a * 10 + (c.toNat - 48)) 0

/-- Python `float()` on a string made only of digits, dots and minus
signs (the alphabet kept by the strip of `parse_amount`): an optional
leading minus, then digits with at most one dot, with at least one
digit overall. -/
def pyFloatOfChars (cs : List Char) : Option Rat :=
  let (neg, rest) := match cs with
    | '-' :: t => (true, t)
    | _ => (false, cs)
  let intPart := rest.takeWhile (fun c => c.isDigit)
  match rest.dropWhile (fun c => c.isDigit) with
  | [] =>
    if intPart.isEmpty then none
    else some ((if neg then (-1 : Rat) else 1) * (digitsVal intPart : Rat))
  | '.' :: frac =>
    if frac.all (fun c => c.isDigit) && (!intPart.isEmpty || !frac.isEmpty) then
      some ((if neg then (-1 : Rat) else 1)
        * ((digitsVal intPart : Rat) + (digitsVal frac : Rat) / (10 : Rat) ^ frac.length))
    else none
  | _ => none

/-- `parse_amount`: empty and NaN guard, strip, negativity from a DR
marker anywhere in the uppercased string or a leading parenthesis,
character strip to digits/dot/minus, Python float, then the sign is
forced negative when a marker was seen. -/
def parse_amount (amount_str : String) : Option Rat :=
  if amount_str = "" then none
  else
    let s := amount_str.trim
    let is_negative := pyIn "DR" (pyUpper s) || leadsWith ['('] s.toList
    let clean := s.toList.filter (fun c => c.isDigit || c = '.' || c = '-')
    match pyFloatOfChars clean with
    | none => none
    | some amount => some (if is_negative then -(abs amount) else amount)

/-- The body of the data-row loop of `parse_csv_file` for one row:
`none` when one of the three `continue` guards fires (missing date or
amount cell, unparseable date, unparseable amount), otherwise the
normalized transaction.  `pdate` is the date parser, `clean` the
merchant-name cleaner. -/
def rowOut (pdate : String → Option String) (clean : String → String)
    (row : CsvRow) : Option ParsedRow :=
  match row.date, row.amount with
  | some d, some a =>
    match pdate d with
    | none => none
    | some transaction_date =>
      match parse_amount a with
      | none => none
      | some amount =>
        let description := row.description.getD ""
        let merchant_name := match row.merchant_name with
          | some m => clean m
          | none => clean description
        some ⟨transaction_date, amount, description, merchant_name⟩
  | _, _ => none

/-- One iteration of the data-row loop: append the normalized
transaction, or keep the accumulator when the row is skipped. -/
def rowStep (pdate : String → Option String) (clean : String → String)
    (transactions : List ParsedRow) (row : CsvRow) : List ParsedRow :=
  match rowOut pdate clean row with
  | some t => transactions ++ [t]
  | none => transactions

/-- The data-row loop of `parse_csv_file`: rows are processed in
order, appending one transaction per kept row. -/
def parse_csv_rows (pdate : String → Option String) (clean : String → String)
    (rows : List CsvRow) : List ParsedRow :=
  rows.foldl (rowStep pdate clean) []

/-- The fold of the row loop is the filterMap of its body (helper). -/
theorem foldl_rowStep_eq_filterMap (pdate : String → Option String)
    (clean : String → String) :
    ∀ (l : List CsvRow) (acc : List ParsedRow),
      l.foldl (rowStep pdate clean) acc = acc ++ l.filterMap (rowOut pdate clean) := by
  intro l
  induction l with
  | nil => intro acc; simp
  | cons x xs ih =>
    intro acc
    cases hfx : rowOut pdate clean x <;> simp [rowStep, hfx, ih, List.append_assoc]

/-! ## Claim C6 -/

/-- C6: the parser output is exactly one normalized row per input data
row whose date and amount cells are present and parse, in order, and
no row for any input row missing either cell or failing either parse —
for every date parser and merchant cleaner, hence for the ones of the
source. -/
theorem c6_parse_keeps_exactly (pdate : String → Option String)
    (clean : String → String) (rows : List CsvRow) :
    parse_csv_rows pdate clean rows = rows.filterMap (rowOut pdate clean)
      ∧ ∀ row : CsvRow,
          (rowOut pdate clean row).isSome = true ↔
            ∃ d a, row.date = some d ∧ row.amount = some a
              ∧ (pdate d).isSome = true ∧ (parse_amount a).isSome = true := by
  constructor
  · unfold parse_csv_rows
    simpa using foldl_rowStep_eq_filterMap pdate clean rows []
  · intro row
    rcases hd : row.date with _ | d
    · simp [rowOut, hd]
    · rcases ha : row.amount with _ | a
      · simp [rowOut, hd, ha]
      · rcases hp : pdate d with _ | td
        · simp [rowOut, hd, ha, hp]
        · rcases hq : parse_amount a with _ | amt
          · simp [rowOut, hd, ha, hp, hq]
          · simp [rowOut, hd, ha, hp, hq]

end Fins
